import Mathlib

/-!
Shallow embedding of the container-provisioning script
(source file 9._Crear_contenedores_desde_CSV_c.py).

The script reads event records from a CSV store, validates each record,
evicts any stale same-named container, sanitizes the data volume,
launches a new container, polls the status endpoint for a content id,
and commits that id back into the store.

Pure fragments (validation, command building, store rewrite) are embedded
as Lean functions following the source line by line.  External effects
(container runtime, HTTP endpoint, filesystem) are abstracted as oracle
inputs, and the engine is embedded as a state-passing function that also
produces a trace of the externally visible actions it performed.

String processing is carried out on character lists with structural
recursion so that every definition evaluates inside the kernel.
-/

set_option autoImplicit false

namespace Acestream

/-- Split a character list at every occurrence of the separator, like the
single-character case of the Python str.split used by the embedding;
the empty input yields one empty fragment. -/
def dividirEn (sep : Char) : List Char → List (List Char)
  | [] => [[]]
  | c :: resto =>
    match dividirEn sep resto with
    | [] => [[c]]
    | g :: gs => if c = sep then [] :: g :: gs else (c :: g) :: gs

/-- The whitespace characters removed by Python str.strip on CSV cells. -/
def esBlanco (c : Char) : Bool :=
  c = ' ' || c = '\t' || c = '\n' || c = '\r'

/-- Python str.strip: drop whitespace from both ends. -/
def recortar (cs : List Char) : List Char :=
  ((cs.dropWhile esBlanco).reverse.dropWhile esBlanco).reverse

/-- Decimal value of a digit list (only applied after an all-digit check). -/
def valorDecimal (cs : List Char) : Nat :=
  cs.foldl (fun acc c => acc * 10 + (c.toNat - 48)) 0

/-- One row of the CSV record store, keyed by the nine declared headers
(name, title, port, service_access_token, tracker, source, host, bitrate,
content_id); all cells are strings as read by the CSV dictionary reader. -/
structure Evento where
  name : String
  title : String
  port : String
  service_access_token : String
  tracker : String
  source : String
  host : String
  bitrate : String
  content_id : String
  deriving DecidableEq

/-- A row with every cell empty, used as lookup default. -/
def eventoVacio : Evento :=
  { name := "", title := "", port := "", service_access_token := "",
    tracker := "", source := "", host := "", bitrate := "", content_id := "" }

/-- The EventoConfig dataclass: numeric fields already parsed to integers. -/
structure EventoConfig where
  nombre : String
  titulo : String
  puerto : Int
  tracker : String
  source : String
  host : String
  bitrate : Int
  token : String
  deriving DecidableEq

/-- One character of the name class [a-zA-Z0-9_-]. -/
def esCaracterNombre (c : Char) : Bool :=
  c.isAlphanum || c = '_' || c = '-'

/-- The check re.match of ^[a-zA-Z0-9_-]+$ on the record name:
non-empty and every character in the class. -/
def nombreValido (s : String) : Bool :=
  !s.toList.isEmpty && s.toList.all esCaracterNombre

/-- One dotted-decimal octet as accepted by the Python ipaddress module:
one to three digits, value at most 255, no leading zero. -/
def octetoValido (p : List Char) : Bool :=
  !p.isEmpty && p.all Char.isDigit && p.length ≤ 3 &&
    (p = ['0'] || p.headD ' ' ≠ '0') && valorDecimal p ≤ 255

/-- Modelled from the spec: the host rule accepts a syntactically valid
IPv4 literal.  The source delegates to the external ipaddress library
(not part of this repository); dotted-quad parsing follows its
documented grammar. -/
def esIpv4 (s : String) : Bool :=
  let partes := dividirEn '.' s.toList
  partes.length = 4 && partes.all octetoValido

/-- One hexadecimal group of an IPv6 literal: at most four hex digits. -/
def grupoHexValido (g : List Char) : Bool :=
  g.isEmpty || (g.length ≤ 4 && g.all (fun c => c.isDigit ||
    ('a' ≤ c && c ≤ 'f') || ('A' ≤ c && c ≤ 'F')))

/-- Modelled from the spec: the host rule also accepts a syntactically
valid IPv6 literal (external ipaddress library, not part of this
repository); simplified grammar of colon-separated hex groups with at
most one run of empty groups. -/
def esIpv6 (s : String) : Bool :=
  let grupos := dividirEn ':' s.toList
  2 ≤ grupos.length && grupos.length ≤ 9 && grupos.all grupoHexValido &&
    grupos.countP (fun g => g.isEmpty) ≤ 3

/-- The check _es_ip_valida: the string parses as an IP address. -/
def esIpValida (s : String) : Bool :=
  esIpv4 s || esIpv6 s

/-- One label of the domain regex: alphanumeric first and last character,
alphanumeric or hyphen inside, length 1 to 63. -/
def etiquetaValida (l : List Char) : Bool :=
  1 ≤ l.length && l.length ≤ 63 &&
    l.all (fun c => c.isAlphanum || c = '-') &&
    (l.headD ' ').isAlphanum && (l.getLastD ' ').isAlphanum

/-- The check _es_dominio_valido: the anchored regex accepts exactly the
dot-separated sequences of valid labels. -/
def esDominioValido (s : String) : Bool :=
  (dividirEn '.' s.toList).all etiquetaValida

/-- Violation message for a bad name. -/
def msgNombre : String :=
  "Nombre inválido: use solo letras, números, guiones y guiones bajos"

/-- Violation message for a bad port. -/
def msgPuerto : String :=
  "Puerto inválido: debe estar entre 1024 y 65535"

/-- Violation message for a bad host. -/
def msgHost : String :=
  "Host inválido: debe ser una IP válida o un nombre de dominio"

/-- Violation message for a bad bitrate. -/
def msgBitrate : String :=
  "Bitrate inválido"

/-- Violation message for an empty title. -/
def msgTitulo : String :=
  "El título no puede estar vacío"

/-- Violation message for an empty source. -/
def msgFuente : String :=
  "La fuente no puede estar vacía"

/-- EventoConfig.validar: each check is evaluated independently and
appends its message; the list of violations is returned in source order. -/
def validar (c : EventoConfig) : List String :=
  (if nombreValido c.nombre then [] else [msgNombre]) ++
  (if 1024 ≤ c.puerto ∧ c.puerto ≤ 65535 then [] else [msgPuerto]) ++
  (if esIpValida c.host || esDominioValido c.host then [] else [msgHost]) ++
  (if 0 ≤ c.bitrate ∧ c.bitrate ≤ 10000000 then [] else [msgBitrate]) ++
  (if (recortar c.titulo.toList).isEmpty then [msgTitulo] else []) ++
  (if (recortar c.source.toList).isEmpty then [msgFuente] else [])

/-- Python int(...) applied to a CSV cell: optional surrounding
whitespace, optional sign, at least one digit; anything else raises
ValueError, modelled as none. -/
def parseEntero (s : String) : Option Int :=
  let t := recortar s.toList
  let (neg, ds) :=
    match t with
    | '-' :: resto => (true, resto)
    | '+' :: resto => (false, resto)
    | otro => (false, otro)
  if !ds.isEmpty && ds.all Char.isDigit then
    some (if neg then -(valorDecimal ds : Int) else (valorDecimal ds : Int))
  else none

/-- Construction of EventoConfig from a CSV row inside crear_desde_csv:
int(evento[port]) is evaluated first, then int(evento[bitrate]); an
unparsable cell raises ValueError before validar is ever called. -/
def crearConfig (ev : Evento) : Except String EventoConfig :=
  match parseEntero ev.port with
  | none => Except.error ("invalid literal for int: " ++ ev.port)
  | some p =>
    match parseEntero ev.bitrate with
    | none => Except.error ("invalid literal for int: " ++ ev.bitrate)
    | some b =>
      Except.ok
        { nombre := ev.name, titulo := ev.title, puerto := p,
          tracker := ev.tracker, source := ev.source, host := ev.host,
          bitrate := b, token := ev.service_access_token }

/-- The declared CSV headers, in order. -/
def cabeceras : List String :=
  ["name", "title", "port", "service_access_token", "tracker", "source",
   "host", "bitrate", "content_id"]

/-- EventoManager._guardar_evento over the raw rows of the store: reject a
row whose arity disagrees with the headers, otherwise append it. -/
def guardarEvento (filas : List (List String)) (evento : List String) :
    Except String (List (List String)) :=
  if evento.length ≠ cabeceras.length then
    Except.error "Número incorrecto de campos"
  else
    Except.ok (filas ++ [evento])

/-- EventoManager._actualizar_content_id: rewrite the whole store,
replacing the content_id cell of every row whose name matches and
copying every other row and cell unchanged. -/
def actualizarContentId (almacen : List Evento) (nombre contentId : String) :
    List Evento :=
  almacen.map (fun ev =>
    if ev.name = nombre then { ev with content_id := contentId } else ev)

/-- EventoManager._construir_comando_docker: the exact argument list, in
source order. -/
def construirComandoDocker (c : EventoConfig) : List String :=
  ["docker", "run", "-d", "--restart", "unless-stopped",
   "--name", c.nombre,
   "-p", toString c.puerto ++ ":" ++ toString c.puerto ++ "/tcp",
   "-p", toString c.puerto ++ ":" ++ toString c.puerto ++ "/udp",
   "-v", "acestreamengine_" ++ c.nombre ++ ":/data",
   "lob666/acestreamengine",
   "--port", toString c.puerto,
   "--tracker", c.tracker,
   "--stream-source",
   "--name", c.nombre,
   "--title", c.titulo,
   "--publish-dir", "/data",
   "--cache-dir", "/data",
   "--skip-internal-tracker",
   "--quality", "HD",
   "--category", "amateur",
   "--service-access-token", c.token,
   "--service-remote-access",
   "--log-debug", "1",
   "--max-peers", "6",
   "--max-upload-slots", "6",
   "--source-read-timeout", "15",
   "--source-reconnect-interval", "1",
   "--host", c.host,
   "--source", c.source,
   "--bitrate", toString c.bitrate]

/-- Indices of the entries of construirComandoDocker that are literal
flags or constants, independent of the record fields. -/
def posicionesFijas : List Nat :=
  [0, 1, 2, 3, 4, 5, 7, 9, 11, 13, 14, 16, 18, 19, 21, 23, 24, 25, 26,
   27, 28, 29, 30, 31, 32, 34, 35, 36, 37, 38, 39, 40, 41, 42, 43, 44,
   45, 47, 49]

/-- The JSON body of one monitor response: the two optional string
fields the script reads. -/
structure DatosMonitor where
  content_id : Option String
  download_hash : Option String
  deriving DecidableEq

/-- One HTTP exchange with the status endpoint: status code, and the
decoded JSON body (none models a body that fails to decode). -/
structure RespuestaHttp where
  status : Nat
  cuerpo : Option DatosMonitor
  deriving DecidableEq

/-- The dictionary obtener_monitor returns on success: content_id and
download_hash as read from the body. -/
structure InformeEstado where
  content_id : String
  download_hash : Option String
  deriving DecidableEq

/-- The sentinel value the script compares content ids against. -/
def centinela : String := "No encontrado"

/-- The error message obtener_monitor raises when every attempt fails. -/
def msgAgotado : String :=
  "No se pudo obtener el monitor después de varios intentos"

/-- Classification of one attempt inside obtener_monitor: a transport
failure (none), a non-200 status, an undecodable body, or an absent,
empty or sentinel content id all continue the loop (none); otherwise the
attempt succeeds with the report the function returns. -/
def exitoDe : Option RespuestaHttp → Option InformeEstado
  | none => none
  | some r =>
    if r.status = 200 then
      match r.cuerpo with
      | none => none
      | some d =>
        match d.content_id with
        | none => none
        | some cid =>
          if cid ≠ "" ∧ cid ≠ centinela then
            some { content_id := cid, download_hash := d.download_hash }
          else none
    else none

/-- The attempt loop of obtener_monitor, from attempt index i with the
given number of attempts remaining; the response oracle maps the attempt
index to that attempt outcome. -/
def obtenerMonitorDesde (respuestas : Nat → Option RespuestaHttp) :
    Nat → Nat → Except String InformeEstado
  | _, 0 => Except.error msgAgotado
  | i, n + 1 =>
    match exitoDe (respuestas i) with
    | some informe => Except.ok informe
    | none => obtenerMonitorDesde respuestas (i + 1) n

/-- The default number of attempts of obtener_monitor. -/
def intentosPorDefecto : Nat := 10

/-- EventoManager.obtener_monitor: poll the status endpoint up to the
given number of attempts, succeeding immediately on the first usable
response and raising RuntimeError once every attempt is spent. -/
def obtenerMonitor (respuestas : Nat → Option RespuestaHttp)
    (intentos : Nat) : Except String InformeEstado :=
  obtenerMonitorDesde respuestas 0 intentos

/-- First attempt index in the window of the given length, counted from
index i, whose response satisfies the success test of obtener_monitor. -/
def primerExitoDesde (respuestas : Nat → Option RespuestaHttp) :
    Nat → Nat → Option Nat
  | _, 0 => none
  | i, n + 1 =>
    if (exitoDe (respuestas i)).isSome then some i
    else primerExitoDesde respuestas (i + 1) n

/-- Externally determined outcomes of one record cycle: whether evicting
the stale container succeeds, how many volume files the sanitizer
removes, whether docker run succeeds, whether the id lookup succeeds,
and the sequence of status-endpoint responses seen by the poller. -/
structure MundoRegistro where
  limpiezaContenedorOk : Bool
  archivosEliminados : Nat
  dockerOk : Bool
  psOk : Bool
  respuestas : Nat → Option RespuestaHttp

/-- Externally visible action of the engine, recorded in execution
order: a per-record construction or processing error caught at the outer
boundary, a validation failure, the eviction of a stale container, the
volume sanitization, the docker launch, the status poll, the failure to
obtain a content id caught at the inner boundary, and a store write. -/
inductive Accion where
  | errorRegistro (nombre : String)
  | validacionFallida (nombre : String)
  | limpiezaContenedor (nombre : String)
  | limpiezaVolumen (nombre : String) (eliminados : Nat)
  | lanzamiento (nombre : String)
  | consultaMonitor (nombre : String)
  | errorMonitor (nombre : String)
  | escritura (nombre : String) (contentId : String)
  deriving DecidableEq

/-- One iteration of the crear_desde_csv loop body for an in-range row:
build the config (an unparsable numeric cell raises before validation
and is caught at the outer except), validate (violations skip the row),
evict the stale container (a failure is caught at the outer except),
sanitize the volume, run docker (a failure is caught at the outer
except), look the container id up and poll (failures of either are
caught at the inner except, leaving the store untouched), and on success
commit the content id into the store.  Returns the resulting store and
the trace of actions. -/
def procesarRegistro (m : MundoRegistro) (almacen : List Evento)
    (ev : Evento) : List Evento × List Accion :=
  match crearConfig ev with
  | Except.error _ => (almacen, [Accion.errorRegistro ev.name])
  | Except.ok config =>
    if validar config = [] then
      if m.limpiezaContenedorOk then
        if m.dockerOk then
          if m.psOk then
            match obtenerMonitor m.respuestas intentosPorDefecto with
            | Except.error _ =>
              (almacen,
               [Accion.limpiezaContenedor config.nombre,
                Accion.limpiezaVolumen config.nombre m.archivosEliminados,
                Accion.lanzamiento config.nombre,
                Accion.consultaMonitor config.nombre,
                Accion.errorMonitor config.nombre])
            | Except.ok informe =>
              (actualizarContentId almacen config.nombre informe.content_id,
               [Accion.limpiezaContenedor config.nombre,
                Accion.limpiezaVolumen config.nombre m.archivosEliminados,
                Accion.lanzamiento config.nombre,
                Accion.consultaMonitor config.nombre,
                Accion.escritura config.nombre informe.content_id])
          else
            (almacen,
             [Accion.limpiezaContenedor config.nombre,
              Accion.limpiezaVolumen config.nombre m.archivosEliminados,
              Accion.lanzamiento config.nombre,
              Accion.errorMonitor config.nombre])
        else
          (almacen,
           [Accion.limpiezaContenedor config.nombre,
            Accion.limpiezaVolumen config.nombre m.archivosEliminados,
            Accion.lanzamiento config.nombre,
            Accion.errorRegistro config.nombre])
      else
        (almacen,
         [Accion.limpiezaContenedor config.nombre,
          Accion.errorRegistro config.nombre])
    else
      (almacen, [Accion.validacionFallida config.nombre])

/-- The batch error message raised on an out-of-range index; the source
interpolates the one-based position idx + 1. -/
def msgIndice (idx : Int) : String :=
  "Índice " ++ toString (idx + 1) ++ " fuera de rango"

/-- The crear_desde_csv loop: eventos is the snapshot read once before
the loop, almacen the current store contents, pos the batch position
(the per-record world oracle is indexed by it).  The range check happens
as each index is reached; an out-of-range index raises ValueError, which
aborts the remainder of the batch at that point.  Returns the final
store, the concatenated trace, and the batch error if one was raised. -/
def crearDesdeCsvAux (mundo : Nat → MundoRegistro) (eventos : List Evento) :
    Nat → List Evento → List Int →
    List Evento × List Accion × Option String
  | _, almacen, [] => (almacen, [], none)
  | pos, almacen, idx :: resto =>
    if 0 ≤ idx ∧ idx < (eventos.length : Int) then
      let paso := procesarRegistro (mundo pos) almacen
        (eventos.getD idx.toNat eventoVacio)
      let siguiente := crearDesdeCsvAux mundo eventos (pos + 1) paso.1 resto
      (siguiente.1, paso.2 ++ siguiente.2.1, siguiente.2.2)
    else (almacen, [], some (msgIndice idx))

/-- EventoManager.crear_desde_csv: read the store once, then run the
loop over the requested indices starting from that snapshot. -/
def crearDesdeCsv (mundo : Nat → MundoRegistro) (eventos : List Evento)
    (indices : List Int) : List Evento × List Accion × Option String :=
  crearDesdeCsvAux mundo eventos 0 eventos indices

/-- One directory entry seen by the volume sanitizer: its name, whether
it is a regular file, and whether deleting it would succeed. -/
structure Archivo where
  nombre : String
  esArchivo : Bool
  borradoOk : Bool
  deriving DecidableEq

/-- Position of the last dot in a name, if any. -/
def posUltimoPunto (cs : List Char) : Option Nat :=
  (List.range cs.length).foldl
    (fun acc i => if cs.getD i ' ' = '.' then some i else acc) none

/-- The pathlib suffix rule: the substring from the last dot when that
dot is neither the first nor the last character, empty otherwise. -/
def sufijo (nombre : String) : String :=
  let cs := nombre.toList
  match posUltimoPunto cs with
  | some i =>
    if 0 < i ∧ i < cs.length - 1 then String.mk (cs.drop i) else ""
  | none => ""

/-- The extension allow-list of the sanitizer. -/
def extensionesPermitidas : List String := [".acelive", ".sauth"]

/-- The per-entry condition under which the sanitizer deletes: a regular
file whose suffix is not allow-listed. -/
def debeBorrar (a : Archivo) : Bool :=
  a.esArchivo && !extensionesPermitidas.contains (sufijo a.nombre)

/-- EventoManager.limpiar_archivos_temporales over an abstract directory
listing: a missing backing path yields 0 deletions; otherwise every
direct-child regular file with a non-allow-listed suffix is deleted,
counting successes and skipping entries whose deletion fails.  Returns
the count and the names actually removed. -/
def limpiarArchivosTemporales (existe : Bool) (hijos : List Archivo) :
    Nat × List String :=
  if existe then
    hijos.foldl
      (fun acc a =>
        if debeBorrar a then
          if a.borradoOk then (acc.1 + 1, acc.2 ++ [a.nombre]) else acc
        else acc)
      (0, [])
  else (0, [])

/-! Concrete fixtures used by the witnesses and counterexamples. -/

/-- A valid configuration with the given port and the other fields taken
from the end-to-end scenario of the spec. -/
def ejemploConfig (p : Int) : EventoConfig :=
  { nombre := "demo", titulo := "Demo", puerto := p,
    tracker := "udp://tracker.opentrackr.org:1337/announce",
    source := "srv", host := "10.0.0.5", bitrate := 600000,
    token := "12345" }

/-- The valid configuration with port 8642. -/
def cfgDemo : EventoConfig := ejemploConfig 8642

/-- A stored row that parses and validates cleanly. -/
def evDemo : Evento :=
  { name := "demo", title := "Demo", port := "8642",
    service_access_token := "12345",
    tracker := "udp://tracker.opentrackr.org:1337/announce",
    source := "srv", host := "10.0.0.5", bitrate := "600000",
    content_id := "" }

/-- A copy of evDemo whose port cell is not a numeric literal. -/
def evPuertoMalo : Evento := { evDemo with port := "abc" }

/-- Response oracle whose every attempt succeeds with content id abc123. -/
def respOk : Nat → Option RespuestaHttp := fun _ =>
  some { status := 200,
         cuerpo := some { content_id := some "abc123",
                          download_hash := some "h1" } }

/-- Response oracle whose every attempt is HTTP 200 with a parsable body
whose content_id field is present but the empty string. -/
def respVacia : Nat → Option RespuestaHttp := fun _ =>
  some { status := 200,
         cuerpo := some { content_id := some "", download_hash := none } }

/-- Response oracle whose every attempt is a transport failure. -/
def respFalla : Nat → Option RespuestaHttp := fun _ => none

/-- A per-record world where every external step succeeds. -/
def mundoBueno : Nat → MundoRegistro := fun _ =>
  { limpiezaContenedorOk := true, archivosEliminados := 1,
    dockerOk := true, psOk := true, respuestas := respOk }

/-- A per-record world where everything succeeds except the poll, whose
every attempt is a transport failure. -/
def mundoAgotado : MundoRegistro :=
  { limpiezaContenedorOk := true, archivosEliminados := 0,
    dockerOk := true, psOk := true, respuestas := respFalla }

/-- The mundoAgotado world at every batch position. -/
def mundoAgotadoTodo : Nat → MundoRegistro := fun _ => mundoAgotado

/-- Two stored rows sharing the name x. -/
def evX1 : Evento := { evDemo with name := "x" }

/-- Second row with the name x and a different title. -/
def evX2 : Evento := { evDemo with name := "x", title := "Otro" }

/-- A raw CSV row named x. -/
def filaX : List String :=
  ["x", "T", "8642", "tok", "tr", "src", "h", "600000", ""]

/-- Another raw CSV row with the same name x. -/
def filaX2 : List String :=
  ["x", "T2", "9000", "tok2", "tr2", "src2", "h2", "700000", ""]

/-! Helper lemmas shared by the claim theorems. -/

theorem actualizar_getD (almacen : List Evento) (nombre cid : String)
    (i : Nat) (h : i < almacen.length) :
    (actualizarContentId almacen nombre cid).getD i eventoVacio =
      (if (almacen.getD i eventoVacio).name = nombre
       then { almacen.getD i eventoVacio with content_id := cid }
       else almacen.getD i eventoVacio) := by
  have h2 : i < (actualizarContentId almacen nombre cid).length := by
    simpa [actualizarContentId] using h
  rw [List.getD_eq_getElem _ _ h2, List.getD_eq_getElem _ _ h]
  simp [actualizarContentId]

theorem limpiar_foldl (hijos : List Archivo) (n : Nat) (l : List String) :
    hijos.foldl
      (fun acc a =>
        if debeBorrar a then
          if a.borradoOk then (acc.1 + 1, acc.2 ++ [a.nombre]) else acc
        else acc)
      (n, l) =
    (n + ((hijos.filter (fun a => debeBorrar a && a.borradoOk)).map
        Archivo.nombre).length,
     l ++ (hijos.filter (fun a => debeBorrar a && a.borradoOk)).map
        Archivo.nombre) := by
  induction hijos generalizing n l with
  | nil => simp
  | cons a resto ih =>
    by_cases h1 : debeBorrar a
    · by_cases h2 : a.borradoOk
      · simp [List.foldl_cons, List.filter_cons, h1, h2, ih,
          Nat.add_assoc, Nat.add_comm 1]
      · simp [List.foldl_cons, List.filter_cons, h1, h2, ih]
    · simp [List.foldl_cons, List.filter_cons, h1, ih]

/-! The claims. -/

/-- C3: for every store state and record name, committing a resolved
content id rewrites the store so that only the matching rows have their
content_id cell changed: the length is preserved, every other cell of
every row is unchanged, a row whose name does not match is wholly
unchanged, and a row whose name matches has its content_id set to the
committed value. -/
theorem c3_marco (almacen : List Evento) (nombre cid : String) (i : Nat)
    (h : i < almacen.length) :
    (actualizarContentId almacen nombre cid).length = almacen.length ∧
    (((actualizarContentId almacen nombre cid).getD i eventoVacio).name
        = (almacen.getD i eventoVacio).name ∧
     ((actualizarContentId almacen nombre cid).getD i eventoVacio).title
        = (almacen.getD i eventoVacio).title ∧
     ((actualizarContentId almacen nombre cid).getD i eventoVacio).port
        = (almacen.getD i eventoVacio).port ∧
     ((actualizarContentId almacen nombre cid).getD i
        eventoVacio).service_access_token
        = (almacen.getD i eventoVacio).service_access_token ∧
     ((actualizarContentId almacen nombre cid).getD i eventoVacio).tracker
        = (almacen.getD i eventoVacio).tracker ∧
     ((actualizarContentId almacen nombre cid).getD i eventoVacio).source
        = (almacen.getD i eventoVacio).source ∧
     ((actualizarContentId almacen nombre cid).getD i eventoVacio).host
        = (almacen.getD i eventoVacio).host ∧
     ((actualizarContentId almacen nombre cid).getD i eventoVacio).bitrate
        = (almacen.getD i eventoVacio).bitrate) ∧
    ((almacen.getD i eventoVacio).name ≠ nombre →
      (actualizarContentId almacen nombre cid).getD i eventoVacio
        = almacen.getD i eventoVacio) ∧
    ((almacen.getD i eventoVacio).name = nombre →
      ((actualizarContentId almacen nombre cid).getD i
        eventoVacio).content_id = cid) := by
  have key := actualizar_getD almacen nombre cid i h
  refine ⟨by simp [actualizarContentId], ?_, ?_, ?_⟩
  · rw [key]
    by_cases hn : (almacen.getD i eventoVacio).name = nombre
    · rw [if_pos hn]
      exact ⟨rfl, rfl, rfl, rfl, rfl, rfl, rfl, rfl⟩
    · rw [if_neg hn]
      exact ⟨rfl, rfl, rfl, rfl, rfl, rfl, rfl, rfl⟩
  · intro hn
    rw [key, if_neg hn]
  · intro hn
    rw [key, if_pos hn]

/-- Witness for C3 at a singleton store: the matching row receives the
committed content id. -/
theorem c3_marco_witness :
    ((actualizarContentId [evDemo] "demo" "abc123").getD 0
      eventoVacio).content_id = "abc123" :=
  (c3_marco [evDemo] "demo" "abc123" 0 (by decide)).2.2.2 rfl

/-- C5: the port rule of validar: a port outside 1024 to 65535 always
yields the port violation and a port inside never does, for every
record; in particular port 80 with otherwise-valid fields is rejected
and port 8642 with otherwise-valid fields yields no violation at all. -/
theorem c5_puerto (c : EventoConfig) :
    (¬ (1024 ≤ c.puerto ∧ c.puerto ≤ 65535) → msgPuerto ∈ validar c) ∧
    ((1024 ≤ c.puerto ∧ c.puerto ≤ 65535) → msgPuerto ∉ validar c) ∧
    msgPuerto ∈ validar (ejemploConfig 80) ∧
    validar (ejemploConfig 8642) = [] := by
  refine ⟨?_, ?_, by decide, by decide⟩
  · intro h
    unfold validar
    rw [if_neg h]
    simp
  · intro h
    unfold validar
    rw [if_pos h]
    split_ifs <;> simp_all <;> decide

/-- Witness for C5: port 80 is out of range, hence rejected. -/
theorem c5_puerto_witness : msgPuerto ∈ validar (ejemploConfig 80) :=
  (c5_puerto (ejemploConfig 80)).1 (by decide)

/-- C6 counterexample: a record whose port cell is the non-numeric
literal abc never reaches validar: constructing the config raises
ValueError first, the engine catches it at the outer per-record boundary
and records a processing error, and no validation violation is produced
for any input shape, contradicting the claim that malformed numeric
fields become violations in the returned list. -/
theorem c6_contra :
    crearConfig evPuertoMalo
      = Except.error "invalid literal for int: abc" ∧
    procesarRegistro mundoAgotado [evPuertoMalo] evPuertoMalo
      = ([evPuertoMalo], [Accion.errorRegistro "demo"]) ∧
    Accion.validacionFallida "demo" ∉
      (procesarRegistro mundoAgotado [evPuertoMalo] evPuertoMalo).2 :=
  ⟨rfl, rfl, by decide⟩

/-- C6 amended: validar itself is a total function on well-typed
configurations, but a record with an unparsable numeric cell never
reaches it: config construction fails first and the engine turns that
failure into a per-record skip at the outer boundary, leaving the store
unchanged and the batch alive, rather than a violation list. -/
theorem c6_tipos (m : MundoRegistro) (almacen : List Evento) (ev : Evento)
    (e : String) (h : crearConfig ev = Except.error e) :
    procesarRegistro m almacen ev = (almacen, [Accion.errorRegistro ev.name]) := by
  unfold procesarRegistro
  rw [h]

/-- Witness for C6 amended at the concrete malformed record. -/
theorem c6_tipos_witness :
    procesarRegistro mundoAgotado [] evPuertoMalo
      = ([], [Accion.errorRegistro "demo"]) :=
  c6_tipos mundoAgotado [] evPuertoMalo "invalid literal for int: abc" rfl

/-- C7: the launch argument list has the same length for any two
records, and every flag or constant entry is identical at the same
position: no flag is conditionally omitted, the shape is a constant of
the schema and the output is a total function of the field values. -/
theorem c7_esquema (c1 c2 : EventoConfig) :
    (construirComandoDocker c1).length = (construirComandoDocker c2).length ∧
    ∀ i, i ∈ posicionesFijas →
      (construirComandoDocker c1).getD i ""
        = (construirComandoDocker c2).getD i "" := by
  refine ⟨rfl, ?_⟩
  intro i hi
  fin_cases hi <;> rfl

/-- Witness for C7 at two records differing in every field. -/
theorem c7_esquema_witness :
    (construirComandoDocker cfgDemo).getD 0 ""
      = (construirComandoDocker (ejemploConfig 2000)).getD 0 "" :=
  (c7_esquema cfgDemo (ejemploConfig 2000)).2 0 (by decide)

/-- C8: the volume sanitizer returns 0 when the backing path does not
exist; otherwise it removes exactly the direct-child regular files whose
suffix is not allow-listed and whose deletion succeeds, returning their
count, skipping individual deletion failures, and touching neither
subdirectories nor allow-listed files; on a volume holding a.acelive,
b.sauth and c.tmp it removes exactly c.tmp and reports count 1. -/
theorem c8_sanitizador :
    (∀ hijos, limpiarArchivosTemporales false hijos = (0, [])) ∧
    (∀ hijos, limpiarArchivosTemporales true hijos =
      (((hijos.filter (fun a => debeBorrar a && a.borradoOk)).map
          Archivo.nombre).length,
       (hijos.filter (fun a => debeBorrar a && a.borradoOk)).map
          Archivo.nombre)) ∧
    limpiarArchivosTemporales true
      [{ nombre := "a.acelive", esArchivo := true, borradoOk := true },
       { nombre := "b.sauth", esArchivo := true, borradoOk := true },
       { nombre := "c.tmp", esArchivo := true, borradoOk := true }]
      = (1, ["c.tmp"]) := by
  refine ⟨fun hijos => rfl, fun hijos => ?_, by decide⟩
  unfold limpiarArchivosTemporales
  rw [if_pos rfl]
  simpa using limpiar_foldl hijos 0 []

/-- C10: the store enforces no name uniqueness: appending accepts any
row of the right arity regardless of duplicate names, and committing a
content id writes it into every row whose name matches, illustrated on
a store holding two rows named x. -/
theorem c10_sin_unicidad :
    (∀ filas evento, evento.length = cabeceras.length →
      guardarEvento filas evento = Except.ok (filas ++ [evento])) ∧
    guardarEvento [filaX] filaX2 = Except.ok [filaX, filaX2] ∧
    actualizarContentId [evX1, evX2] "x" "nuevo"
      = [{ evX1 with content_id := "nuevo" },
         { evX2 with content_id := "nuevo" }] ∧
    (∀ almacen nm cid i, i < almacen.length →
      ((almacen : List Evento).getD i eventoVacio).name = nm →
      ((actualizarContentId almacen nm cid).getD i eventoVacio).content_id
        = cid) := by
  refine ⟨?_, rfl, by decide, ?_⟩
  · intro filas evento h
    unfold guardarEvento
    rw [if_neg (by simp [h])]
  · intro almacen nm cid i hi hn
    rw [actualizar_getD almacen nm cid i hi, if_pos hn]

/-- Witness for C10: appending a row whose name already exists in the
store succeeds. -/
theorem c10_sin_unicidad_witness :
    guardarEvento [] filaX = Except.ok [filaX] :=
  c10_sin_unicidad.1 [] filaX (by decide)

theorem primerExito_lb (f : Nat → Option RespuestaHttp) :
    ∀ (n i k : Nat), primerExitoDesde f i n = some k → i ≤ k := by
  intro n
  induction n with
  | zero => intro i k h; simp [primerExitoDesde] at h
  | succ n ih =>
    intro i k h
    rw [primerExitoDesde] at h
    by_cases hc : (exitoDe (f i)).isSome
    · rw [if_pos hc] at h
      injection h with h2
      omega
    · rw [if_neg hc] at h
      exact Nat.le_of_succ_le (ih (i + 1) k h)

theorem monitor_exito (f : Nat → Option RespuestaHttp)
    (informe : InformeEstado) :
    ∀ (n i k : Nat), primerExitoDesde f i n = some k →
      exitoDe (f k) = some informe →
      obtenerMonitorDesde f i n = Except.ok informe := by
  intro n
  induction n with
  | zero => intro i k h _; simp [primerExitoDesde] at h
  | succ n ih =>
    intro i k h hk
    rw [primerExitoDesde] at h
    rw [obtenerMonitorDesde]
    by_cases hc : (exitoDe (f i)).isSome
    · rw [if_pos hc] at h
      injection h with h2
      subst h2
      rw [hk]
    · rw [if_neg hc] at h
      rw [Option.not_isSome_iff_eq_none.mp hc]
      exact ih (i + 1) k h hk

theorem monitor_agotado (f : Nat → Option RespuestaHttp) :
    ∀ (n i : Nat), primerExitoDesde f i n = none →
      obtenerMonitorDesde f i n = Except.error msgAgotado := by
  intro n
  induction n with
  | zero => intro i _; rfl
  | succ n ih =>
    intro i h
    rw [primerExitoDesde] at h
    rw [obtenerMonitorDesde]
    by_cases hc : (exitoDe (f i)).isSome
    · rw [if_pos hc] at h; simp at h
    · rw [if_neg hc] at h
      rw [Option.not_isSome_iff_eq_none.mp hc]
      exact ih (i + 1) h

theorem monitor_prefijo (f g : Nat → Option RespuestaHttp) :
    ∀ (n i k : Nat), primerExitoDesde f i n = some k →
      (∀ j, i ≤ j → j ≤ k → g j = f j) →
      obtenerMonitorDesde g i n = obtenerMonitorDesde f i n := by
  intro n
  induction n with
  | zero => intro i k h _; simp [primerExitoDesde] at h
  | succ n ih =>
    intro i k h hg
    rw [primerExitoDesde] at h
    by_cases hc : (exitoDe (f i)).isSome
    · rw [if_pos hc] at h
      injection h with h2
      subst h2
      have hgi : g i = f i := hg i (Nat.le_refl i) (Nat.le_refl i)
      obtain ⟨inf, hinf⟩ := Option.isSome_iff_exists.mp hc
      rw [obtenerMonitorDesde, obtenerMonitorDesde, hgi, hinf]
    · rw [if_neg hc] at h
      have hik : i ≤ k := Nat.le_of_succ_le (primerExito_lb f n (i + 1) k h)
      have hgi : g i = f i := hg i (Nat.le_refl i) hik
      rw [obtenerMonitorDesde, obtenerMonitorDesde, hgi,
        Option.not_isSome_iff_eq_none.mp hc]
      exact ih (i + 1) k h (fun j h1 h2 => hg j (Nat.le_of_succ_le h1) h2)

theorem monitor_ventana (f g : Nat → Option RespuestaHttp) :
    ∀ (n i : Nat), (∀ j, i ≤ j → j < i + n → g j = f j) →
      obtenerMonitorDesde g i n = obtenerMonitorDesde f i n := by
  intro n
  induction n with
  | zero => intro i _; rfl
  | succ n ih =>
    intro i hg
    have hgi : g i = f i := hg i (Nat.le_refl i) (by omega)
    rw [obtenerMonitorDesde, obtenerMonitorDesde, hgi]
    cases hfi : exitoDe (f i) with
    | some inf => rfl
    | none => exact ih (i + 1) (fun j h1 h2 => hg j (by omega) (by omega))

/-- C2 counterexample: with every response HTTP 200, parsable, and
content_id present (the empty string) and different from the sentinel,
the claim requires immediate success on the first attempt; the poller
instead treats the empty string as unusable, exhausts its ten attempts
and raises. -/
theorem c2_contra :
    respVacia 0 = some { status := 200,
                         cuerpo := some { content_id := some "",
                                          download_hash := none } } ∧
    (some "" : Option String) ≠ some centinela ∧
    obtenerMonitor respVacia intentosPorDefecto
      = Except.error msgAgotado :=
  ⟨rfl, by decide, rfl⟩

/-- C2 amended: the poller returns the report of the first attempt whose
response is HTTP 200, parsable, with content_id present, non-empty and
different from the sentinel, and issues no attempt beyond it (the result
only depends on the responses up to that attempt); when no such response
occurs within the attempt budget it raises the exhaustion error after
exactly that many attempts, never inspecting any response beyond the
budget. -/
theorem c2_sondeo (f : Nat → Option RespuestaHttp) (n : Nat) :
    (∀ k informe, primerExitoDesde f 0 n = some k →
      exitoDe (f k) = some informe →
      obtenerMonitor f n = Except.ok informe ∧
      ∀ g, (∀ j, j ≤ k → g j = f j) →
        obtenerMonitor g n = Except.ok informe) ∧
    (primerExitoDesde f 0 n = none →
      obtenerMonitor f n = Except.error msgAgotado ∧
      ∀ g, (∀ j, j < n → g j = f j) →
        obtenerMonitor g n = Except.error msgAgotado) := by
  constructor
  · intro k informe h hk
    refine ⟨monitor_exito f informe n 0 k h hk, ?_⟩
    intro g hg
    calc obtenerMonitor g n = obtenerMonitorDesde g 0 n := rfl
    _ = obtenerMonitorDesde f 0 n :=
        monitor_prefijo f g n 0 k h (fun j _ h2 => hg j h2)
    _ = Except.ok informe := monitor_exito f informe n 0 k h hk
  · intro h
    refine ⟨monitor_agotado f n 0 h, ?_⟩
    intro g hg
    calc obtenerMonitor g n = obtenerMonitorDesde g 0 n := rfl
    _ = obtenerMonitorDesde f 0 n :=
        monitor_ventana f g n 0 (fun j _ h2 => hg j (by omega))
    _ = Except.error msgAgotado := monitor_agotado f n 0 h

/-- Witness for C2 amended: a first response that already carries a
usable content id makes the poller succeed at once. -/
theorem c2_sondeo_witness :
    obtenerMonitor respOk intentosPorDefecto
      = Except.ok { content_id := "abc123", download_hash := some "h1" } :=
  ((c2_sondeo respOk intentosPorDefecto).1 0
    { content_id := "abc123", download_hash := some "h1" } rfl rfl).1

theorem exitoDe_contenido (r : Option RespuestaHttp)
    (informe : InformeEstado) (h : exitoDe r = some informe) :
    informe.content_id ≠ "" ∧ informe.content_id ≠ centinela := by
  unfold exitoDe at h
  split at h
  · exact Option.noConfusion h
  · split at h
    · split at h
      · exact Option.noConfusion h
      · split at h
        · exact Option.noConfusion h
        · split at h
          · rename_i hok
            cases h
            exact hok
          · exact Option.noConfusion h
    · exact Option.noConfusion h

theorem monitor_contenido (f : Nat → Option RespuestaHttp) :
    ∀ (n i : Nat) (informe : InformeEstado),
      obtenerMonitorDesde f i n = Except.ok informe →
      informe.content_id ≠ "" ∧ informe.content_id ≠ centinela := by
  intro n
  induction n with
  | zero => intro i informe h; exact Except.noConfusion h
  | succ n ih =>
    intro i informe h
    rw [obtenerMonitorDesde] at h
    cases he : exitoDe (f i) with
    | some inf =>
      rw [he] at h
      have h2 : (Except.ok inf : Except String InformeEstado)
          = Except.ok informe := h
      injection h2 with h3
      subst h3
      exact exitoDe_contenido (f i) inf he
    | none =>
      rw [he] at h
      exact ih (i + 1) informe h

/-- C9: whenever the poller returns, its content id is non-empty and
differs from the sentinel; consequently every store write the engine
performs commits a non-empty, non-sentinel content id, and the sentinel
fallback on the success path can never be the committed value. -/
theorem c9_compromiso :
    (∀ (f : Nat → Option RespuestaHttp) (n : Nat)
        (informe : InformeEstado),
      obtenerMonitor f n = Except.ok informe →
      informe.content_id ≠ "" ∧ informe.content_id ≠ centinela) ∧
    (∀ (m : MundoRegistro) (almacen : List Evento) (ev : Evento)
        (nm cid : String),
      Accion.escritura nm cid ∈ (procesarRegistro m almacen ev).2 →
      cid ≠ "" ∧ cid ≠ centinela) := by
  have hmon : ∀ (f : Nat → Option RespuestaHttp) (n : Nat)
      (informe : InformeEstado),
      obtenerMonitor f n = Except.ok informe →
      informe.content_id ≠ "" ∧ informe.content_id ≠ centinela :=
    fun f n informe h => monitor_contenido f n 0 informe h
  refine ⟨hmon, ?_⟩
  intro m almacen ev nm cid h
  unfold procesarRegistro at h
  split at h
  · simp at h
  · split at h
    · split at h
      · split at h
        · split at h
          · split at h
            · simp at h
            · rename_i informe heq
              simp at h
              obtain ⟨h1, h2⟩ := h
              subst h2
              exact hmon m.respuestas intentosPorDefecto informe heq
          · simp at h
        · simp at h
      · simp at h
    · simp at h

/-- Witness for C9 at the always-succeeding response oracle. -/
theorem c9_compromiso_witness :
    ("abc123" : String) ≠ "" ∧ ("abc123" : String) ≠ centinela :=
  c9_compromiso.1 respOk intentosPorDefecto
    { content_id := "abc123", download_hash := some "h1" } rfl

/-- C4: when a record reaches the poll step and the poll exhausts its
attempts, the engine leaves the store untouched for that record, writes
nothing, and the batch continues with the next record: the loop step on
that record is the loop on the remaining indices from the unchanged
store, with only this record trace prepended, and the batch outcome is
that of the remaining records. -/
theorem c4_sondeo_fallido (m : MundoRegistro) (almacen : List Evento)
    (ev : Evento) (config : EventoConfig)
    (h1 : crearConfig ev = Except.ok config)
    (h2 : validar config = [])
    (h3 : m.limpiezaContenedorOk = true)
    (h4 : m.dockerOk = true)
    (h5 : m.psOk = true)
    (h6 : obtenerMonitor m.respuestas intentosPorDefecto
            = Except.error msgAgotado) :
    procesarRegistro m almacen ev =
      (almacen,
       [Accion.limpiezaContenedor config.nombre,
        Accion.limpiezaVolumen config.nombre m.archivosEliminados,
        Accion.lanzamiento config.nombre,
        Accion.consultaMonitor config.nombre,
        Accion.errorMonitor config.nombre]) ∧
    (∀ nm cid,
      Accion.escritura nm cid ∉ (procesarRegistro m almacen ev).2) ∧
    (∀ (mundo : Nat → MundoRegistro) (eventos : List Evento) (pos : Nat)
        (idx : Int) (resto : List Int),
      mundo pos = m →
      (0 ≤ idx ∧ idx < (eventos.length : Int)) →
      eventos.getD idx.toNat eventoVacio = ev →
      crearDesdeCsvAux mundo eventos pos almacen (idx :: resto) =
        ((crearDesdeCsvAux mundo eventos (pos + 1) almacen resto).1,
         (procesarRegistro m almacen ev).2 ++
           (crearDesdeCsvAux mundo eventos (pos + 1) almacen resto).2.1,
         (crearDesdeCsvAux mundo eventos (pos + 1) almacen resto).2.2)) := by
  have hproc : procesarRegistro m almacen ev =
      (almacen,
       [Accion.limpiezaContenedor config.nombre,
        Accion.limpiezaVolumen config.nombre m.archivosEliminados,
        Accion.lanzamiento config.nombre,
        Accion.consultaMonitor config.nombre,
        Accion.errorMonitor config.nombre]) := by
    unfold procesarRegistro
    simp only [h1, h6]
    rw [if_pos h2, if_pos h3, if_pos h4, if_pos h5]
  refine ⟨hproc, ?_, ?_⟩
  · intro nm cid
    rw [hproc]
    simp
  · intro mundo eventos pos idx resto hm hr hev
    simp only [crearDesdeCsvAux]
    rw [if_pos hr, hm, hev, hproc]

/-- Witness for C4: a failing poll on a concrete valid record leaves the
store unchanged and reports the monitor error. -/
theorem c4_sondeo_fallido_witness :
    procesarRegistro mundoAgotado [evDemo] evDemo =
      ([evDemo],
       [Accion.limpiezaContenedor "demo",
        Accion.limpiezaVolumen "demo" 0,
        Accion.lanzamiento "demo",
        Accion.consultaMonitor "demo",
        Accion.errorMonitor "demo"]) :=
  (c4_sondeo_fallido mundoAgotado [evDemo] evDemo cfgDemo rfl rfl rfl rfl
    rfl rfl).1

theorem crearDesdeCsv_aborta (mundo : Nat → MundoRegistro)
    (eventos : List Evento) (i : Int) (resto : List Int)
    (hi : ¬ (0 ≤ i ∧ i < (eventos.length : Int))) :
    ∀ (pre : List Int) (pos : Nat) (almacen : List Evento),
      (∀ j, j ∈ pre → 0 ≤ j ∧ j < (eventos.length : Int)) →
      crearDesdeCsvAux mundo eventos pos almacen (pre ++ i :: resto) =
        ((crearDesdeCsvAux mundo eventos pos almacen pre).1,
         (crearDesdeCsvAux mundo eventos pos almacen pre).2.1,
         some (msgIndice i)) := by
  intro pre
  induction pre with
  | nil =>
    intro pos almacen _
    simp only [List.nil_append, crearDesdeCsvAux]
    rw [if_neg hi]
  | cons j pre ih =>
    intro pos almacen hpre
    have hj := hpre j (List.mem_cons_self j pre)
    simp only [List.cons_append, crearDesdeCsvAux]
    rw [if_pos hj, if_pos hj]
    simp only [List.append_eq]
    rw [ih (pos + 1) _ (fun x hx => hpre x (List.mem_cons_of_mem j hx))]

/-- C1 counterexample: a batch holding the in-range index 0 and the
out-of-range index 1 over a one-record store raises the index error, yet
the first record was fully processed before the abort: the stale
container was evicted, the launch and poll ran, and the store was
written, contradicting the claim that nothing happens for any record of
a batch holding an out-of-range index. -/
theorem c1_contra :
    (crearDesdeCsv mundoBueno [evDemo] [0, 1]).2.2
      = some "Índice 2 fuera de rango" ∧
    Accion.limpiezaContenedor "demo"
      ∈ (crearDesdeCsv mundoBueno [evDemo] [0, 1]).2.1 ∧
    Accion.escritura "demo" "abc123"
      ∈ (crearDesdeCsv mundoBueno [evDemo] [0, 1]).2.1 ∧
    (crearDesdeCsv mundoBueno [evDemo] [0, 1]).1
      = [{ evDemo with content_id := "abc123" }] :=
  ⟨rfl, by decide, by decide, by decide⟩

/-- C1 amended: the range check runs as each index of the batch is
reached: when every index before the first out-of-range one is in
range, the engine processes those earlier records normally, raises the
index error on reaching the out-of-range index, and performs no
validation, container operation or store write for it or for any later
index; in particular a batch whose first index is out of range aborts
before any record is processed. -/
theorem c1_indice (mundo : Nat → MundoRegistro) (eventos : List Evento)
    (pre : List Int) (i : Int) (resto : List Int)
    (hpre : ∀ j, j ∈ pre → 0 ≤ j ∧ j < (eventos.length : Int))
    (hi : ¬ (0 ≤ i ∧ i < (eventos.length : Int))) :
    crearDesdeCsv mundo eventos (pre ++ i :: resto) =
      ((crearDesdeCsv mundo eventos pre).1,
       (crearDesdeCsv mundo eventos pre).2.1,
       some (msgIndice i)) :=
  crearDesdeCsv_aborta mundo eventos i resto hi pre 0 eventos hpre

/-- Witness for C1 amended: a batch whose only index is out of range
aborts with no action taken and the store unchanged. -/
theorem c1_indice_witness :
    crearDesdeCsv mundoBueno [evDemo] [(1 : Int)] =
      ([evDemo], ([] : List Accion), some "Índice 2 fuera de rango") :=
  c1_indice mundoBueno [evDemo] [] 1 [] (by simp) (by decide)

end Acestream
